import Mathlib

/-!
Shallow embedding of `src/main.go` of vys/go-netperf, a TCP
throughput harness.  The program is embedded as pure Lean functions:

* TCP connections are abstract identifiers (`Conn := Nat`); the network
  environment (resolve / dial / accept outcomes and the per-connection
  I/O event stream) is passed in explicitly as data.
* Each Go function that performs I/O becomes a Lean function from the
  environment to a result record collecting its return value, the log
  lines it emitted, the `Close` calls it performed and the goroutines
  (`go ...`) it spawned, in order.
* Infinite loops (the pump loops, the accept loop, the blocking signal
  wait) are run against a finite observed prefix of environment events;
  exhausting the prefix models "still running", encoded as `none`.
-/

set_option autoImplicit false

namespace GoNetperf

/-- Errors produced by the Go `net` layer.  `eof` models `io.EOF`,
`einval` models `syscall.EINVAL` (returned by `Close` on a nil
connection), and `other k` stands for any further distinct error value. -/
inductive NetErr where
  | eof
  | einval
  | other (code : Nat)
  deriving DecidableEq, Repr

/-- An established `*net.TCPConn` is abstracted to an identifier. -/
abbrev Conn := Nat

deriving instance DecidableEq for Except

/-- Direction of a connection pump, i.e. which handler function a
`Server`/`Client` value carries (`TCPConnWrite` vs `TCPConnRead`). -/
inductive PumpDir where
  | readDir
  | writeDir
  deriving DecidableEq, Repr

/-- Log lines emitted by `log.Println` calls in `src/main.go`, one
constructor per call site, carrying the data interpolated there. -/
inductive LogEvent where
  /-- "Failed to resolve <addr>" (lines 38, 62, 67). -/
  | resolveFailed (addr : String)
  /-- "Failed to listen for tcp connections on address <addr>" (line 43). -/
  | listenFailed (addr : String)
  /-- "Failed to accept connection" (line 50). -/
  | acceptFailed (e : NetErr)
  /-- "Client <remote> connected" in the accept loop (line 53). -/
  | peerConnected (c : Conn)
  /-- "Failed to connect to tcp server on address <addr> from source address <saddr>" (line 78). -/
  | connectFailed (addr saddr : String) (e : NetErr)
  /-- "Client <local> connected to <remote>" in the dial loop (line 82). -/
  | clientConnected (c : Conn)
  /-- "Client <remote> disconnected" in a pump (lines 97, 119). -/
  | disconnected (c : Conn)
  /-- "Failed reading bytes from conn" (line 101). -/
  | readFailed (c : Conn) (e : NetErr)
  /-- "Failed writing bytes to conn" (line 123). -/
  | writeFailed (c : Conn) (e : NetErr)
  /-- "Usage:" plus flag defaults (line 153). -/
  | usage
  /-- "CTRL-C; exiting" (line 184). -/
  | ctrlC
  /-- "Finished execution!" (line 177). -/
  | finished
  deriving DecidableEq, Repr

/-- Semantics of Go's `copy`-into-buffer performed by `c.Read(b)`: the
first `min data.length buf.length` bytes of the incoming `data` replace
the corresponding prefix of `buf`; the rest of `buf` is untouched.  The
buffer length is preserved. -/
def copyInto (buf data : List Nat) : List Nat :=
  data.take (min data.length buf.length) ++ buf.drop (min data.length buf.length)

/-- Result of a terminated connection pump: the log lines it printed,
how many times it invoked `Close` on its connection, the `error` it
returned (`none` = Go `nil`), and the final contents of the shared
payload buffer `b` it had access to. -/
structure PumpResult where
  logs : List LogEvent
  closes : Nat
  ret : Option NetErr
  buf : List Nat
  deriving DecidableEq, Repr

/-- Embedding of `TCPConnRead` (lines 91-108).  The connection's
behaviour is an observed stream of read events: `Except.ok data` is a
successful `c.Read(b)` that deposited `data` into the shared buffer
(the byte count is discarded by the Go code, but the deposit mutates
`b`); `Except.error e` is a failing read.  `none` means the trace ended
with the pump still looping. -/
def TCPConnRead (c : Conn) (buf : List Nat) :
    List (Except NetErr (List Nat)) → Option PumpResult
  | [] => none
  | Except.ok data :: rest => TCPConnRead c (copyInto buf data) rest
  | Except.error e :: _ =>
    if e = NetErr.eof then
      some { logs := [LogEvent.disconnected c], closes := 1, ret := none, buf := buf }
    else
      some { logs := [LogEvent.readFailed c e], closes := 1, ret := some e, buf := buf }

/-- Embedding of `TCPConnWrite` (lines 112-130).  A write event is
`none` for a successful `c.Write(b)` (which only reads the shared
buffer) and `some e` for a failing one. -/
def TCPConnWrite (c : Conn) (buf : List Nat) :
    List (Option NetErr) → Option PumpResult
  | [] => none
  | none :: rest => TCPConnWrite c buf rest
  | some e :: _ =>
    if e = NetErr.eof then
      some { logs := [LogEvent.disconnected c], closes := 1, ret := none, buf := buf }
    else
      some { logs := [LogEvent.writeFailed c e], closes := 1, ret := some e, buf := buf }

/-- Shared-buffer contents after a read pump has consumed the successful
reads `pre` (used to state the pump theorems). -/
def readFold (buf : List Nat) (pre : List (List Nat)) : List Nat :=
  pre.foldl copyInto buf

/-- Embedding of the `Client` struct (lines 24-33).  The `handler`
function pointer is abstracted to the pump direction it selects;
`main` installs `TCPConnRead` here. -/
structure Client where
  proto : String
  addr : String
  handler : PumpDir
  concurrency : Nat
  size : Nat
  nflight : Nat
  reqres : Bool
  saddr : String
  deriving DecidableEq, Repr

/-- Outcomes of the network environment seen by a dialing client:
whether resolving the source / destination address fails, and the
outcome of the k-th `net.DialTCP` call.  `DialTCP` returns a nil
connection exactly when it returns an error, which the `Except` type
captures. -/
structure ClientEnv where
  resolveSrc : Option NetErr
  resolveDst : Option NetErr
  dial : Nat → Except NetErr Conn

/-- Embedding of Go's `(*net.TCPConn).Close` as called by the program.
Per the `net` package, a method call on a nil `*TCPConn` reaches the
embedded `conn`'s `ok()` guard, which checks the receiver for nil and
makes `Close` return `syscall.EINVAL` instead of faulting; on a live
connection `Close` succeeds.  Total: no panic outcome exists. -/
def tcpClose : Option Conn → Option NetErr
  | none => some NetErr.einval
  | some _ => none

/-- Embedding of `(*Client).NewConnection` (lines 59-71): resolve the
source address, resolve the destination address, then dial; `k` is the
index of the dial attempt.  Returns the log lines emitted, the
connection value (`none` = Go nil) and the error value, mirroring the
Go `(conn, err)` pair. -/
def NewConnection (c : Client) (env : ClientEnv) (k : Nat) :
    List LogEvent × Option Conn × Option NetErr :=
  match env.resolveSrc with
  | some e => ([LogEvent.resolveFailed c.saddr], none, some e)
  | none =>
    match env.resolveDst with
    | some e => ([LogEvent.resolveFailed c.addr], none, some e)
    | none =>
      match env.dial k with
      | Except.ok cn => ([], some cn, none)
      | Except.error e => ([], none, some e)

/-- Result of `(*Client).ConnectAndGo`: log lines, the final state of
the `conns` slice, the `Close` calls performed (their receivers, in
order) with the discarded errors those calls returned, the goroutines
spawned (`go c.handler(conns[i])` — handler direction and argument, in
order), and the returned error. -/
structure ConnectResult where
  logs : List LogEvent
  conns : List (Option Conn)
  closes : List (Option Conn)
  closeErrs : List (Option NetErr)
  spawned : List (PumpDir × Option Conn)
  ret : Option NetErr
  deriving DecidableEq, Repr

/-- Loop body of `(*Client).ConnectAndGo` (lines 75-88).  `rem` is the
number of remaining iterations (`c.concurrency - i`), `i` the loop
index, `conns` the slice allocated by `make`, `logs` the output so far.
When the dial loop finishes, the second `for` loop spawns
`go c.handler(conns[i])` for every index of `conns` (whose length is
then `c.concurrency`), modelled as a map over the slice.  On a failed
`NewConnection` the code logs, calls `conn.Close()` on the returned
(nil) connection, discards that error and returns the dial error. -/
def connectGo (c : Client) (env : ClientEnv) :
    Nat → Nat → List (Option Conn) → List LogEvent → ConnectResult
  | 0, _, conns, logs =>
    { logs := logs
      conns := conns
      closes := []
      closeErrs := []
      spawned := conns.map (fun oc => (c.handler, oc))
      ret := none }
  | rem + 1, i, conns, logs =>
    match NewConnection c env i with
    | (nlogs, oc, some e) =>
      { logs := logs ++ nlogs ++ [LogEvent.connectFailed c.addr c.saddr e]
        conns := conns
        closes := [oc]
        closeErrs := [tcpClose oc]
        spawned := []
        ret := some e }
    | (nlogs, oc, none) =>
      connectGo c env rem (i + 1) (conns.set i oc)
        (logs ++ nlogs ++
          (match oc with
           | some cn => [LogEvent.clientConnected cn]
           | none => []))

/-- Embedding of `(*Client).ConnectAndGo` (lines 73-89): allocate the
`conns` slice of length `c.concurrency`, run the dial loop from index
0, then spawn the pumps. -/
def ConnectAndGo (c : Client) (env : ClientEnv) : ConnectResult :=
  connectGo c env c.concurrency 0 (List.replicate c.concurrency none) []

/-- Embedding of the `Server` struct (lines 18-22); `main` installs
`TCPConnWrite` as the handler. -/
structure Server where
  proto : String
  addr : String
  handler : PumpDir
  deriving DecidableEq, Repr

/-- Network outcomes seen by the listening server: whether resolving or
listening fails, and the observed finite prefix of `AcceptTCP`
outcomes. -/
structure ServerEnv where
  resolve : Option NetErr
  listen : Option NetErr
  accepts : List (Except NetErr Conn)

/-- Result of `ListenAndGo`: log lines, handlers spawned per accepted
connection (in order), and the returned error.  `ret = none` means the
function is still inside its infinite accept loop (it can only ever
return an error: the `return nil` after `for` on line 56 is
unreachable). -/
structure ListenResult where
  logs : List LogEvent
  spawned : List (PumpDir × Conn)
  ret : Option NetErr
  deriving DecidableEq, Repr

/-- Accept loop of `(*Server).ListenAndGo` (lines 47-55): a failed
accept is logged and the loop continues; a successful accept is logged
and `go s.handler(conn)` is spawned. -/
def acceptLoop (s : Server) :
    List (Except NetErr Conn) → List LogEvent → List (PumpDir × Conn) → ListenResult
  | [], logs, spawned => { logs := logs, spawned := spawned, ret := none }
  | Except.error e :: rest, logs, spawned =>
    acceptLoop s rest (logs ++ [LogEvent.acceptFailed e]) spawned
  | Except.ok cn :: rest, logs, spawned =>
    acceptLoop s rest (logs ++ [LogEvent.peerConnected cn]) (spawned ++ [(s.handler, cn)])

/-- Embedding of `(*Server).ListenAndGo` (lines 35-57): resolve the
local address, listen, then accept forever. -/
def ListenAndGo (s : Server) (env : ServerEnv) : ListenResult :=
  match env.resolve with
  | some e => { logs := [LogEvent.resolveFailed s.addr], spawned := [], ret := some e }
  | none =>
    match env.listen with
    | some e => { logs := [LogEvent.listenFailed s.addr], spawned := [], ret := some e }
    | none => acceptLoop s env.accepts [] []

/-- Embedding of `net.JoinHostPort`. -/
def joinHostPort (host port : String) : String :=
  host ++ ":" ++ port

/-- Flag values parsed by `main` (lines 136-146), plus `flag.NArg()`.
`profile` is consumed only by the out-of-scope profiling goroutine. -/
structure Config where
  host : String
  port : String
  shost : String
  sport : String
  listen : Bool
  packetsize : Nat
  nconn : Nat
  reqres : Bool
  nflight : Nat
  profile : String
  nargs : Nat
  deriving DecidableEq, Repr

/-- Flag defaults declared on lines 136-145, with no positional
arguments. -/
def defaultFlags : Config :=
  { host := "127.0.0.1"
    port := "12345"
    shost := "127.0.0.1"
    sport := "0"
    listen := false
    packetsize := 1500
    nconn := 254
    reqres := false
    nflight := 1024
    profile := ""
    nargs := 0 }

/-- The `Server` literal built by `main` (line 164). -/
def serverOf (cfg : Config) : Server :=
  { proto := "tcp"
    addr := joinHostPort cfg.host cfg.port
    handler := PumpDir.writeDir }

/-- The `Client` literal built by `main` (lines 168-170). -/
def clientOf (cfg : Config) : Client :=
  { proto := "tcp"
    addr := joinHostPort cfg.host cfg.port
    handler := PumpDir.readDir
    concurrency := cfg.nconn
    size := cfg.packetsize
    nflight := cfg.nflight
    reqres := cfg.reqres
    saddr := joinHostPort cfg.shost cfg.sport }

/-- Environment for a whole run: the outcomes each role would observe,
plus whether a SIGINT eventually arrives (`SigIntHandler` blocks on it
in the client role). -/
structure MainEnv where
  server : ServerEnv
  client : ClientEnv
  sigint : Bool

/-- The shared payload buffer `b = make([]byte, *packetsize)`
(line 158): one zero-filled byte sequence of the configured size,
allocated once per run. -/
def mkPayload (ps : Nat) : List Nat :=
  List.replicate ps 0

/-- Observable outcome of a run of `main`: everything it logged, the
exit status (`none` = the process never terminates: the server's accept
loop or the client's signal wait is still blocking), the payload buffer
that was allocated, and the full result of whichever endpoint ran.
The background goroutines `GoRuntimeStats` and `doprofile` are
out-of-scope telemetry sinks and contribute nothing here. -/
structure MainOutcome where
  logs : List LogEvent
  exitCode : Option Nat
  buf : Option (List Nat)
  clientRes : Option ConnectResult
  serverRes : Option ListenResult
  deriving DecidableEq, Repr

/-- Embedding of `main` (lines 134-178) and `SigIntHandler`
(lines 180-186).  With positional arguments, usage is printed and main
returns (exit 0).  Otherwise `b` is allocated; in server role
`ListenAndGo` runs and only if it returns (an error) does main fall
through to log "Finished execution!" and exit 0; in client role
`ConnectAndGo` runs, its error is discarded, and main blocks in
`SigIntHandler`, which on SIGINT logs and calls `os.Exit(0)` — the
"Finished execution!" line is unreachable in that role. -/
def mainRun (cfg : Config) (env : MainEnv) : MainOutcome :=
  if cfg.nargs ≠ 0 then
    { logs := [LogEvent.usage], exitCode := some 0, buf := none
      clientRes := none, serverRes := none }
  else
    let payload := mkPayload cfg.packetsize
    if cfg.listen then
      let r := ListenAndGo (serverOf cfg) env.server
      match r.ret with
      | some _ =>
        { logs := r.logs ++ [LogEvent.finished], exitCode := some 0, buf := some payload
          clientRes := none, serverRes := some r }
      | none =>
        { logs := r.logs, exitCode := none, buf := some payload
          clientRes := none, serverRes := some r }
    else
      let r := ConnectAndGo (clientOf cfg) env.client
      if env.sigint then
        { logs := r.logs ++ [LogEvent.ctrlC], exitCode := some 0, buf := some payload
          clientRes := some r, serverRes := none }
      else
        { logs := r.logs, exitCode := none, buf := some payload
          clientRes := some r, serverRes := none }

/-- Client with three connections, as `main` would build it. -/
def clientA : Client :=
  { proto := "tcp"
    addr := "10.0.0.2:12345"
    handler := PumpDir.readDir
    concurrency := 3
    size := 1500
    nflight := 1024
    reqres := false
    saddr := "10.0.0.1:0" }

/-- Client identical to `clientA` but with two connections. -/
def clientB : Client :=
  { clientA with concurrency := 2 }

/-- Environment in which the first two dials succeed and the third is
refused. -/
def envDialFail : ClientEnv :=
  { resolveSrc := none
    resolveDst := none
    dial := fun k => if k < 2 then Except.ok k else Except.error (NetErr.other 111) }

/-- Environment in which every dial succeeds. -/
def envDialOk : ClientEnv :=
  { resolveSrc := none
    resolveDst := none
    dial := fun k => Except.ok (k + 10) }

/-- Run environment whose client-side dial always fails and in which a
SIGINT eventually arrives. -/
def envFail : MainEnv :=
  { server := { resolve := none, listen := none, accepts := [] }
    client := { resolveSrc := none
                resolveDst := none
                dial := fun _ => Except.error (NetErr.other 111) }
    sigint := true }

/-- Run environment whose server-side address resolution fails. -/
def envResolveFail : MainEnv :=
  { server := { resolve := some (NetErr.other 5), listen := none, accepts := [] }
    client := { resolveSrc := none, resolveDst := none, dial := fun k => Except.ok k }
    sigint := false }

/-- Flag set selecting the server role. -/
def cfgListen : Config :=
  { defaultFlags with listen := true }

/-- Flag set differing from the defaults only in `reqres` and
`nflight`. -/
def cfgReq : Config :=
  { defaultFlags with reqres := true, nflight := 7 }

theorem readFold_nil (buf : List Nat) : readFold buf [] = buf := rfl

theorem readFold_cons (buf d : List Nat) (ds : List (List Nat)) :
    readFold buf (d :: ds) = readFold (copyInto buf d) ds := rfl

/-- Running `TCPConnRead` on a trace of successful reads `pre` followed
by an error: the pump terminates at the error, having folded the
incoming data into the shared buffer. -/
theorem TCPConnRead_run (c : Conn) :
    ∀ (pre : List (List Nat)) (buf : List Nat) (e : NetErr)
      (rest : List (Except NetErr (List Nat))),
      TCPConnRead c buf (pre.map Except.ok ++ Except.error e :: rest) =
        some { logs := if e = NetErr.eof then [LogEvent.disconnected c]
                       else [LogEvent.readFailed c e]
               closes := 1
               ret := if e = NetErr.eof then none else some e
               buf := readFold buf pre } := by
  intro pre
  induction pre with
  | nil =>
    intro buf e rest
    by_cases h : e = NetErr.eof <;> simp [TCPConnRead, h, readFold]
  | cons d ds ih =>
    intro buf e rest
    simpa [TCPConnRead, readFold_cons] using ih (copyInto buf d) e rest

/-- Running `TCPConnWrite` on `k` successful writes followed by an
error: the pump terminates at the error and the buffer is untouched. -/
theorem TCPConnWrite_run (c : Conn) :
    ∀ (k : Nat) (buf : List Nat) (e : NetErr) (rest : List (Option NetErr)),
      TCPConnWrite c buf (List.replicate k none ++ some e :: rest) =
        some { logs := if e = NetErr.eof then [LogEvent.disconnected c]
                       else [LogEvent.writeFailed c e]
               closes := 1
               ret := if e = NetErr.eof then none else some e
               buf := buf } := by
  intro k
  induction k with
  | zero =>
    intro buf e rest
    by_cases h : e = NetErr.eof <;> simp [TCPConnWrite, h]
  | succ m ih =>
    intro buf e rest
    simpa [TCPConnWrite, List.replicate_succ] using ih buf e rest

theorem NewConnection_ok (c : Client) (env : ClientEnv) (k : Nat) (cn : Conn)
    (hS : env.resolveSrc = none) (hD : env.resolveDst = none)
    (hk : env.dial k = Except.ok cn) :
    NewConnection c env k = ([], some cn, none) := by
  unfold NewConnection
  rw [hS, hD, hk]

theorem NewConnection_dialErr (c : Client) (env : ClientEnv) (k : Nat) (e : NetErr)
    (hS : env.resolveSrc = none) (hD : env.resolveDst = none)
    (hk : env.dial k = Except.error e) :
    NewConnection c env k = ([], none, some e) := by
  unfold NewConnection
  rw [hS, hD, hk]

theorem set_at_len {α : Type} (l₁ l₂ : List α) (a v : α) :
    (l₁ ++ a :: l₂).set l₁.length v = l₁ ++ v :: l₂ := by
  induction l₁ with
  | nil => rfl
  | cons x xs ih =>
    simp only [List.cons_append, List.length_cons, List.set]
    exact congrArg (x :: ·) ih

/-- Invariant computation for the all-dials-succeed run of the dial
loop: starting at index `pref.length` with the slice `pref ++ nils`,
the loop fills the remaining slots in index order, logs one connection
line per dial, performs no `Close`, spawns one handler per slot of the
final slice and returns nil. -/
theorem connectGo_ok (c : Client) (env : ClientEnv) (f : Nat → Conn)
    (hS : env.resolveSrc = none) (hD : env.resolveDst = none) :
    ∀ (rem : Nat) (pref : List (Option Conn)) (logs : List LogEvent),
      (∀ j, j < pref.length + rem → env.dial j = Except.ok (f j)) →
      connectGo c env rem pref.length (pref ++ List.replicate rem none) logs =
        { logs := logs ++ (List.range' pref.length rem).map
                    (fun j => LogEvent.clientConnected (f j))
          conns := pref ++ (List.range' pref.length rem).map (fun j => some (f j))
          closes := []
          closeErrs := []
          spawned := (pref ++ (List.range' pref.length rem).map
                        (fun j => some (f j))).map (fun oc => (c.handler, oc))
          ret := none } := by
  intro rem
  induction rem with
  | zero =>
    intro pref logs _
    simp [connectGo]
  | succ m ih =>
    intro pref logs hdial
    have h0 : env.dial pref.length = Except.ok (f pref.length) := hdial pref.length (by omega)
    simp only [connectGo, NewConnection_ok c env pref.length (f pref.length) hS hD h0]
    rw [List.replicate_succ, set_at_len,
        List.append_cons pref (some (f pref.length)) (List.replicate m none)]
    have hlen : pref.length + 1 = (pref ++ [some (f pref.length)]).length := by
      simp
    rw [hlen, ih (pref ++ [some (f pref.length)])
      (logs ++ [] ++ [LogEvent.clientConnected (f pref.length)])
      (by
        intro j hj
        apply hdial
        simp only [List.length_append, List.length_cons, List.length_nil] at hj
        omega)]
    simp [List.range'_succ]

/-- Invariant computation for a dial loop whose k-th remaining attempt
fails: the loop logs the connections made so far and the failure line,
closes exactly the nil connection returned by the failed dial
(discarding the EINVAL that close returns), spawns nothing and returns
the dial error; the slice keeps the already-opened connections. -/
theorem connectGo_err (c : Client) (env : ClientEnv) (f : Nat → Conn) (e : NetErr)
    (hS : env.resolveSrc = none) (hD : env.resolveDst = none) :
    ∀ (k rem : Nat) (pref : List (Option Conn)) (logs : List LogEvent),
      k < rem →
      (∀ j, j < pref.length + k → env.dial j = Except.ok (f j)) →
      env.dial (pref.length + k) = Except.error e →
      connectGo c env rem pref.length (pref ++ List.replicate rem none) logs =
        { logs := logs ++ (List.range' pref.length k).map
                    (fun j => LogEvent.clientConnected (f j))
                  ++ [LogEvent.connectFailed c.addr c.saddr e]
          conns := (pref ++ (List.range' pref.length k).map (fun j => some (f j)))
                   ++ List.replicate (rem - k) none
          closes := [none]
          closeErrs := [some NetErr.einval]
          spawned := []
          ret := some e } := by
  intro k
  induction k with
  | zero =>
    intro rem pref logs hk _ herr
    cases rem with
    | zero => omega
    | succ m =>
      rw [Nat.add_zero] at herr
      simp only [connectGo, NewConnection_dialErr c env pref.length e hS hD herr]
      simp [tcpClose]
  | succ n ih =>
    intro rem pref logs hk hok herr
    cases rem with
    | zero => omega
    | succ m =>
      have hn : n < m := by omega
      have h0 : env.dial pref.length = Except.ok (f pref.length) := hok pref.length (by omega)
      simp only [connectGo, NewConnection_ok c env pref.length (f pref.length) hS hD h0]
      rw [List.replicate_succ, set_at_len,
          List.append_cons pref (some (f pref.length)) (List.replicate m none)]
      have hlen : pref.length + 1 = (pref ++ [some (f pref.length)]).length := by
        simp
      rw [hlen, ih m (pref ++ [some (f pref.length)])
        (logs ++ [] ++ [LogEvent.clientConnected (f pref.length)]) hn
        (by
          intro j hj
          apply hok
          simp only [List.length_append, List.length_cons, List.length_nil] at hj
          omega)
        (by
          rw [show (pref ++ [some (f pref.length)]).length + n = pref.length + (n + 1) from by
            simp only [List.length_append, List.length_cons, List.length_nil]
            omega]
          exact herr)]
      simp [List.range'_succ, Nat.succ_sub_succ]

theorem acceptLoop_ret_none (s : Server) :
    ∀ (tr : List (Except NetErr Conn)) (logs : List LogEvent)
      (spawned : List (PumpDir × Conn)),
      (acceptLoop s tr logs spawned).ret = none := by
  intro tr
  induction tr with
  | nil => intro logs spawned; rfl
  | cons ev rest ih =>
    intro logs spawned
    cases ev with
    | ok cn => exact ih _ _
    | error e => exact ih _ _

/-- When `ListenAndGo` returns an error, the log it emitted is the
resolve-failure or the listen-failure line for its address. -/
theorem ListenAndGo_err_logs (s : Server) (env : ServerEnv) (e : NetErr)
    (h : (ListenAndGo s env).ret = some e) :
    (ListenAndGo s env).logs = [LogEvent.resolveFailed s.addr] ∨
      (ListenAndGo s env).logs = [LogEvent.listenFailed s.addr] := by
  unfold ListenAndGo at h ⊢
  cases hr : env.resolve with
  | some er => exact Or.inl rfl
  | none =>
    rw [hr] at h
    cases hl : env.listen with
    | some el => exact Or.inr rfl
    | none =>
      rw [hl] at h
      have h2 : (acceptLoop s env.accepts [] []).ret = some e := h
      rw [acceptLoop_ret_none s env.accepts [] []] at h2
      cases h2

theorem finished_not_mem_NewConnection (c : Client) (env : ClientEnv) (k : Nat) :
    LogEvent.finished ∉ (NewConnection c env k).1 := by
  unfold NewConnection
  cases env.resolveSrc with
  | some e => simp
  | none =>
    cases env.resolveDst with
    | some e => simp
    | none =>
      cases env.dial k with
      | ok cn => simp
      | error e => simp

/-- The dial loop never emits the "Finished execution!" line. -/
theorem connectGo_no_finished (c : Client) (env : ClientEnv) :
    ∀ (rem i : Nat) (conns : List (Option Conn)) (logs : List LogEvent),
      LogEvent.finished ∉ logs →
      LogEvent.finished ∉ (connectGo c env rem i conns logs).logs := by
  intro rem
  induction rem with
  | zero => intro i conns logs h; exact h
  | succ m ih =>
    intro i conns logs h
    have hnl : LogEvent.finished ∉ (NewConnection c env i).1 :=
      finished_not_mem_NewConnection c env i
    rcases hnc : NewConnection c env i with ⟨nlogs, oc, oe⟩
    rw [hnc] at hnl
    simp only [connectGo, hnc]
    cases oe with
    | some e => simp [h, hnl]
    | none =>
      apply ih
      cases oc with
      | some cn => simp [h, hnl]
      | none => simp [h, hnl]

/-- When the dial loop returns an error, the failure line for that
error is among the log lines it emitted. -/
theorem connectGo_ret_logs (c : Client) (env : ClientEnv) :
    ∀ (rem i : Nat) (conns : List (Option Conn)) (logs : List LogEvent) (e : NetErr),
      (connectGo c env rem i conns logs).ret = some e →
      LogEvent.connectFailed c.addr c.saddr e ∈ (connectGo c env rem i conns logs).logs := by
  intro rem
  induction rem with
  | zero =>
    intro i conns logs e h
    simp [connectGo] at h
  | succ m ih =>
    intro i conns logs e h
    rcases hnc : NewConnection c env i with ⟨nlogs, oc, oe⟩
    simp only [connectGo, hnc] at h ⊢
    cases oe with
    | some e2 =>
      simp only at h
      simp only [Option.some.injEq] at h
      subst h
      simp
    | none => exact ih _ _ _ _ h

theorem NewConnection_ext (c1 c2 : Client) (env : ClientEnv) (k : Nat)
    (ha : c1.addr = c2.addr) (hs : c1.saddr = c2.saddr) :
    NewConnection c1 env k = NewConnection c2 env k := by
  unfold NewConnection
  rw [ha, hs]

/-- The dial loop reads only the `addr`, `saddr`, `handler` and (via
its caller) `concurrency` fields of the `Client` struct: `reqres` and
`nflight` are never consulted. -/
theorem connectGo_ext (c1 c2 : Client) (env : ClientEnv)
    (ha : c1.addr = c2.addr) (hs : c1.saddr = c2.saddr) (hh : c1.handler = c2.handler) :
    ∀ (rem i : Nat) (conns : List (Option Conn)) (logs : List LogEvent),
      connectGo c1 env rem i conns logs = connectGo c2 env rem i conns logs := by
  intro rem
  induction rem with
  | zero => intro i conns logs; simp [connectGo, hh]
  | succ m ih =>
    intro i conns logs
    simp only [connectGo, NewConnection_ext c1 c2 env i ha hs]
    rcases hnc : NewConnection c2 env i with ⟨nlogs, oc, oe⟩
    cases oe with
    | some e => simp [ha, hs]
    | none => exact ih _ _ _

theorem ConnectAndGo_ext (c1 c2 : Client) (env : ClientEnv)
    (ha : c1.addr = c2.addr) (hs : c1.saddr = c2.saddr) (hh : c1.handler = c2.handler)
    (hconc : c1.concurrency = c2.concurrency) :
    ConnectAndGo c1 env = ConnectAndGo c2 env := by
  unfold ConnectAndGo
  rw [hconc]
  exact connectGo_ext c1 c2 env ha hs hh _ _ _ _

/-- C1, counterexample: a read-direction pump operation does change the
contents of the shared payload buffer — `c.Read(b)` deposits the
received bytes into `b`.  Starting from buffer `[0, 0]`, one successful
read delivering byte `7` followed by a clean close leaves the buffer at
`[7, 0] ≠ [0, 0]`, refuting the claim that the buffer is unchanged by
every operation of read-direction and write-direction pumps alike. -/
theorem C1_counterexample :
    TCPConnRead 0 [0, 0] [Except.ok [7], Except.error NetErr.eof] =
      some { logs := [LogEvent.disconnected 0], closes := 1, ret := none, buf := [7, 0] }
    ∧ ([7, 0] : List Nat) ≠ [0, 0] :=
  ⟨by decide, by decide⟩

/-- C1, amended: the shared payload buffer is never mutated by any
operation of a write-direction pump (`c.Write(b)` only reads `b`), so
unsynchronized concurrent reads by write pumps are sound; but
read-direction pumps use the same global buffer as the destination of
`c.Read(b)`, and their operations do overwrite its contents. -/
theorem C1_write_pumps_never_mutate_buffer :
    (∀ (c : Conn) (buf : List Nat) (tr : List (Option NetErr)),
        ((TCPConnWrite c buf tr).map PumpResult.buf).getD buf = buf)
    ∧ (∃ (c : Conn) (buf : List Nat) (tr : List (Except NetErr (List Nat)))
        (r : PumpResult), TCPConnRead c buf tr = some r ∧ r.buf ≠ buf) := by
  constructor
  · intro c buf tr
    induction tr with
    | nil => rfl
    | cons ev rest ih =>
      cases ev with
      | none => simpa [TCPConnWrite] using ih
      | some e => by_cases h : e = NetErr.eof <;> simp [TCPConnWrite, h]
  · exact ⟨0, [0, 0], [Except.ok [7], Except.error NetErr.eof],
      { logs := [LogEvent.disconnected 0], closes := 1, ret := none, buf := [7, 0] },
      by decide, by decide⟩

/-- C4: for both pump directions, when the blocking I/O call reports
`io.EOF` the pump logs the disconnect, closes the connection and
returns nil; on any other error it logs the failure, closes the
connection and returns that same error; in both cases it performs
exactly one `Close` during the connection's lifetime. -/
theorem C4_pump_termination (c : Conn) (buf : List Nat) (pre : List (List Nat)) (k : Nat)
    (e : NetErr) (rest1 : List (Except NetErr (List Nat))) (rest2 : List (Option NetErr)) :
    TCPConnRead c buf (pre.map Except.ok ++ Except.error e :: rest1) =
      some { logs := if e = NetErr.eof then [LogEvent.disconnected c]
                     else [LogEvent.readFailed c e]
             closes := 1
             ret := if e = NetErr.eof then none else some e
             buf := readFold buf pre }
    ∧ TCPConnWrite c buf (List.replicate k none ++ some e :: rest2) =
      some { logs := if e = NetErr.eof then [LogEvent.disconnected c]
                     else [LogEvent.writeFailed c e]
             closes := 1
             ret := if e = NetErr.eof then none else some e
             buf := buf } :=
  ⟨TCPConnRead_run c pre buf e rest1, TCPConnWrite_run c k buf e rest2⟩

/-- C2: if the i-th dial attempt of the startup sequence fails,
`ConnectAndGo` returns that error and spawns no pump at all — not for
the failed connection and not for the i connections already
established. -/
theorem C2_all_or_nothing (c : Client) (env : ClientEnv) (i : Nat) (e : NetErr)
    (f : Nat → Conn)
    (hS : env.resolveSrc = none) (hD : env.resolveDst = none)
    (hi : i < c.concurrency)
    (hok : ∀ j, j < i → env.dial j = Except.ok (f j))
    (herr : env.dial i = Except.error e) :
    (ConnectAndGo c env).ret = some e ∧ (ConnectAndGo c env).spawned = [] := by
  have h := connectGo_err c env f e hS hD i c.concurrency [] [] hi
    (by simpa using hok) (by simpa using herr)
  simp only [List.length_nil, List.nil_append] at h
  unfold ConnectAndGo
  rw [h]
  exact ⟨rfl, rfl⟩

/-- C2 witness at `clientA` and `envDialFail`: third dial (index 2 of
3) fails, nothing is spawned. -/
theorem C2_witness :
    envDialFail.resolveSrc = none ∧ envDialFail.resolveDst = none
    ∧ 2 < clientA.concurrency
    ∧ (∀ j, j < 2 → envDialFail.dial j = Except.ok j)
    ∧ envDialFail.dial 2 = Except.error (NetErr.other 111)
    ∧ ((ConnectAndGo clientA envDialFail).ret = some (NetErr.other 111)
       ∧ (ConnectAndGo clientA envDialFail).spawned = []) :=
  ⟨rfl, rfl, by decide, by decide, by decide,
    C2_all_or_nothing clientA envDialFail 2 (NetErr.other 111) (fun j => j)
      rfl rfl (by decide) (by decide) (by decide)⟩

/-- C6: when all N dials succeed, the N connections are established in
index order 0..N-1 (witnessed by the log sequence), and immediately
afterward exactly N read-direction pumps have been spawned, one per
established connection, in index order. -/
theorem C6_exactly_n_read_pumps (c : Client) (env : ClientEnv) (f : Nat → Conn)
    (hh : c.handler = PumpDir.readDir)
    (hS : env.resolveSrc = none) (hD : env.resolveDst = none)
    (hN : 1 ≤ c.concurrency)
    (hok : ∀ j, j < c.concurrency → env.dial j = Except.ok (f j)) :
    (ConnectAndGo c env).ret = none
    ∧ (ConnectAndGo c env).spawned =
        (List.range c.concurrency).map (fun j => (PumpDir.readDir, some (f j)))
    ∧ (ConnectAndGo c env).spawned.length = c.concurrency
    ∧ (ConnectAndGo c env).logs =
        (List.range c.concurrency).map (fun j => LogEvent.clientConnected (f j))
    ∧ (ConnectAndGo c env).conns = (List.range c.concurrency).map (fun j => some (f j)) := by
  have h := connectGo_ok c env f hS hD c.concurrency [] [] (by simpa using hok)
  simp only [List.length_nil, List.nil_append] at h
  unfold ConnectAndGo
  rw [h]
  simp [List.range_eq_range', List.map_map, Function.comp_def, hh]

/-- C6 witness at `clientB` and `envDialOk`: both dials succeed and
exactly two read pumps are spawned in order. -/
theorem C6_witness :
    clientB.handler = PumpDir.readDir
    ∧ envDialOk.resolveSrc = none ∧ envDialOk.resolveDst = none
    ∧ 1 ≤ clientB.concurrency
    ∧ (∀ j, j < clientB.concurrency → envDialOk.dial j = Except.ok (j + 10))
    ∧ ((ConnectAndGo clientB envDialOk).ret = none
       ∧ (ConnectAndGo clientB envDialOk).spawned =
           (List.range clientB.concurrency).map (fun j => (PumpDir.readDir, some (j + 10)))
       ∧ (ConnectAndGo clientB envDialOk).spawned.length = clientB.concurrency
       ∧ (ConnectAndGo clientB envDialOk).logs =
           (List.range clientB.concurrency).map (fun j => LogEvent.clientConnected (j + 10))
       ∧ (ConnectAndGo clientB envDialOk).conns =
           (List.range clientB.concurrency).map (fun j => some (j + 10))) :=
  ⟨rfl, rfl, rfl, by decide, by decide,
    C6_exactly_n_read_pumps clientB envDialOk (fun j => j + 10)
      rfl rfl rfl (by decide) (by decide)⟩

/-- C7: when the i-th dial fails, the error path closes only the nil
connection value returned by the failed dial; the i previously opened
connections are still stored, untouched and unclosed, in the `conns`
slice when `ConnectAndGo` returns the error. -/
theorem C7_no_rollback_on_partial_failure (c : Client) (env : ClientEnv) (i : Nat)
    (e : NetErr) (f : Nat → Conn)
    (hS : env.resolveSrc = none) (hD : env.resolveDst = none)
    (hi : i < c.concurrency)
    (hok : ∀ j, j < i → env.dial j = Except.ok (f j))
    (herr : env.dial i = Except.error e) :
    (ConnectAndGo c env).closes = [none]
    ∧ (ConnectAndGo c env).conns =
        (List.range i).map (fun j => some (f j)) ++ List.replicate (c.concurrency - i) none
    ∧ (∀ j, j < i → some (f j) ∉ (ConnectAndGo c env).closes)
    ∧ (ConnectAndGo c env).ret = some e := by
  have h := connectGo_err c env f e hS hD i c.concurrency [] [] hi
    (by simpa using hok) (by simpa using herr)
  simp only [List.length_nil, List.nil_append] at h
  unfold ConnectAndGo
  rw [h]
  simp [List.range_eq_range']

/-- C7 witness at `clientA` and `envDialFail`: connections 0 and 1
remain open in the slice, only the nil value of the failed third dial
is closed. -/
theorem C7_witness :
    envDialFail.resolveSrc = none ∧ envDialFail.resolveDst = none
    ∧ 2 < clientA.concurrency
    ∧ (∀ j, j < 2 → envDialFail.dial j = Except.ok j)
    ∧ envDialFail.dial 2 = Except.error (NetErr.other 111)
    ∧ ((ConnectAndGo clientA envDialFail).closes = [none]
       ∧ (ConnectAndGo clientA envDialFail).conns =
           (List.range 2).map (fun j => some j)
             ++ List.replicate (clientA.concurrency - 2) none
       ∧ (∀ j, j < 2 → some j ∉ (ConnectAndGo clientA envDialFail).closes)
       ∧ (ConnectAndGo clientA envDialFail).ret = some (NetErr.other 111)) :=
  ⟨rfl, rfl, by decide, by decide, by decide,
    C7_no_rollback_on_partial_failure clientA envDialFail 2 (NetErr.other 111) (fun j => j)
      rfl rfl (by decide) (by decide) (by decide)⟩

/-- C10: a failing dial makes `NewConnection` return a nil connection
alongside its error; `ConnectAndGo` invokes `Close` on exactly that nil
value, the close is a non-faulting no-op returning `EINVAL`, that error
is discarded, and `ConnectAndGo` returns the dial error normally. -/
theorem C10_nil_close_is_safe (c : Client) (env : ClientEnv) (i : Nat) (e : NetErr)
    (f : Nat → Conn)
    (hS : env.resolveSrc = none) (hD : env.resolveDst = none)
    (hi : i < c.concurrency)
    (hok : ∀ j, j < i → env.dial j = Except.ok (f j))
    (herr : env.dial i = Except.error e) :
    (NewConnection c env i).2.1 = none
    ∧ (ConnectAndGo c env).closes = [none]
    ∧ tcpClose none = some NetErr.einval
    ∧ (ConnectAndGo c env).closeErrs = [some NetErr.einval]
    ∧ (ConnectAndGo c env).ret = some e := by
  have h := connectGo_err c env f e hS hD i c.concurrency [] [] hi
    (by simpa using hok) (by simpa using herr)
  simp only [List.length_nil, List.nil_append] at h
  unfold ConnectAndGo
  rw [h, NewConnection_dialErr c env i e hS hD herr]
  exact ⟨rfl, rfl, rfl, rfl, rfl⟩

/-- C10 witness at `clientA` and `envDialFail`. -/
theorem C10_witness :
    envDialFail.resolveSrc = none ∧ envDialFail.resolveDst = none
    ∧ 2 < clientA.concurrency
    ∧ (∀ j, j < 2 → envDialFail.dial j = Except.ok j)
    ∧ envDialFail.dial 2 = Except.error (NetErr.other 111)
    ∧ ((NewConnection clientA envDialFail 2).2.1 = none
       ∧ (ConnectAndGo clientA envDialFail).closes = [none]
       ∧ tcpClose none = some NetErr.einval
       ∧ (ConnectAndGo clientA envDialFail).closeErrs = [some NetErr.einval]
       ∧ (ConnectAndGo clientA envDialFail).ret = some (NetErr.other 111)) :=
  ⟨rfl, rfl, by decide, by decide, by decide,
    C10_nil_close_is_safe clientA envDialFail 2 (NetErr.other 111) (fun j => j)
      rfl rfl (by decide) (by decide) (by decide)⟩

/-- C3, counterexample: in the client role a fatal dial error is logged
and returned by `ConnectAndGo`, but the top-level flow never logs
"Finished execution!" — `main` discards the error and blocks in
`SigIntHandler`, which exits via `os.Exit(0)` before reaching that log
line.  Run with default flags against an always-refusing target. -/
theorem C3_counterexample :
    (ConnectAndGo (clientOf defaultFlags) envFail.client).ret = some (NetErr.other 111)
    ∧ LogEvent.finished ∉ (mainRun defaultFlags envFail).logs
    ∧ (mainRun defaultFlags envFail).logs =
        [LogEvent.connectFailed "127.0.0.1:12345" "127.0.0.1:0" (NetErr.other 111),
         LogEvent.ctrlC] :=
  ⟨by decide, by decide, by decide⟩

/-- C3, amended: a fatal resolve/bind error in the server role is
logged, `ListenAndGo` returns it, and the top-level flow then logs
"Finished execution!" and exits with status 0.  A fatal resolve/dial
error in the client role is logged and `ConnectAndGo` returns it, but
`main` ignores the result and blocks in `SigIntHandler`: "Finished
execution!" is never logged in that role, and the process exits (status
0, via the interrupt handler) only if a SIGINT arrives. -/
theorem C3_amended_fatal_error_flow (cfgS cfgC : Config) (envS envC : MainEnv)
    (eS eC : NetErr)
    (haS : cfgS.nargs = 0) (hlS : cfgS.listen = true)
    (hS : (ListenAndGo (serverOf cfgS) envS.server).ret = some eS)
    (haC : cfgC.nargs = 0) (hlC : cfgC.listen = false)
    (hC : (ConnectAndGo (clientOf cfgC) envC.client).ret = some eC) :
    ((mainRun cfgS envS).logs =
        (ListenAndGo (serverOf cfgS) envS.server).logs ++ [LogEvent.finished]
      ∧ (mainRun cfgS envS).exitCode = some 0
      ∧ ((ListenAndGo (serverOf cfgS) envS.server).logs
            = [LogEvent.resolveFailed (serverOf cfgS).addr]
          ∨ (ListenAndGo (serverOf cfgS) envS.server).logs
            = [LogEvent.listenFailed (serverOf cfgS).addr]))
    ∧ (LogEvent.finished ∉ (mainRun cfgC envC).logs
      ∧ LogEvent.connectFailed (clientOf cfgC).addr (clientOf cfgC).saddr eC
          ∈ (mainRun cfgC envC).logs
      ∧ (mainRun cfgC envC).exitCode = (if envC.sigint then some 0 else none)) := by
  constructor
  · refine ⟨?_, ?_, ListenAndGo_err_logs (serverOf cfgS) envS.server eS hS⟩ <;>
      simp [mainRun, haS, hlS, hS]
  · have hnf : LogEvent.finished ∉ (ConnectAndGo (clientOf cfgC) envC.client).logs := by
      unfold ConnectAndGo
      exact connectGo_no_finished _ _ _ _ _ _ (by simp)
    have hcf : LogEvent.connectFailed (clientOf cfgC).addr (clientOf cfgC).saddr eC
        ∈ (ConnectAndGo (clientOf cfgC) envC.client).logs := by
      unfold ConnectAndGo at hC ⊢
      exact connectGo_ret_logs _ _ _ _ _ _ _ hC
    refine ⟨?_, ?_, ?_⟩ <;>
      by_cases hs : envC.sigint <;> simp [mainRun, haC, hlC, hs, hnf, hcf]

/-- C3 amended witness: server run with a failing resolve, client run
with default flags and a refused dial. -/
theorem C3_witness :
    cfgListen.nargs = 0 ∧ cfgListen.listen = true
    ∧ (ListenAndGo (serverOf cfgListen) envResolveFail.server).ret = some (NetErr.other 5)
    ∧ defaultFlags.nargs = 0 ∧ defaultFlags.listen = false
    ∧ (ConnectAndGo (clientOf defaultFlags) envFail.client).ret = some (NetErr.other 111)
    ∧ (((mainRun cfgListen envResolveFail).logs =
          (ListenAndGo (serverOf cfgListen) envResolveFail.server).logs
            ++ [LogEvent.finished]
        ∧ (mainRun cfgListen envResolveFail).exitCode = some 0
        ∧ ((ListenAndGo (serverOf cfgListen) envResolveFail.server).logs
              = [LogEvent.resolveFailed (serverOf cfgListen).addr]
            ∨ (ListenAndGo (serverOf cfgListen) envResolveFail.server).logs
              = [LogEvent.listenFailed (serverOf cfgListen).addr]))
      ∧ (LogEvent.finished ∉ (mainRun defaultFlags envFail).logs
        ∧ LogEvent.connectFailed (clientOf defaultFlags).addr (clientOf defaultFlags).saddr
            (NetErr.other 111) ∈ (mainRun defaultFlags envFail).logs
        ∧ (mainRun defaultFlags envFail).exitCode =
            (if envFail.sigint then some 0 else none))) :=
  ⟨rfl, rfl, by decide, rfl, rfl, by decide,
    C3_amended_fatal_error_flow cfgListen defaultFlags envResolveFail envFail
      (NetErr.other 5) (NetErr.other 111) rfl rfl (by decide) rfl rfl (by decide)⟩

/-- C8: under the precondition that no positional arguments are given
and `packetsize > 0`, `main` allocates the one payload buffer of the
run, of length exactly `packetsize`, zero-filled (which the contract
permits), and the flag default is 1500. -/
theorem C8_buffer_provider (cfg : Config) (env : MainEnv)
    (hargs : cfg.nargs = 0) (hps : 0 < cfg.packetsize) :
    (mainRun cfg env).buf = some (mkPayload cfg.packetsize)
    ∧ (mkPayload cfg.packetsize).length = cfg.packetsize
    ∧ (∀ x, x ∈ mkPayload cfg.packetsize → x = 0)
    ∧ defaultFlags.packetsize = 1500 := by
  refine ⟨?_, by simp [mkPayload], ?_, rfl⟩
  · by_cases hl : cfg.listen
    · simp only [mainRun, hargs, hl]
      cases hr : (ListenAndGo (serverOf cfg) env.server).ret <;> simp [hr]
    · by_cases hs : env.sigint <;> simp [mainRun, hargs, hl, hs]
  · intro x hx
    exact List.eq_of_mem_replicate hx

/-- C8 witness at the default flags. -/
theorem C8_witness :
    defaultFlags.nargs = 0 ∧ 0 < defaultFlags.packetsize
    ∧ ((mainRun defaultFlags envFail).buf = some (mkPayload defaultFlags.packetsize)
      ∧ (mkPayload defaultFlags.packetsize).length = defaultFlags.packetsize
      ∧ (∀ x, x ∈ mkPayload defaultFlags.packetsize → x = 0)
      ∧ defaultFlags.packetsize = 1500) :=
  ⟨rfl, by decide, C8_buffer_provider defaultFlags envFail rfl (by decide)⟩

/-- C9: the reserved flags `reqres` and `nflight` have no behavioural
effect — two runs of `main` whose configurations agree on every other
flag produce identical outcomes (same logs, exit status, buffer,
endpoint results) in any environment. -/
theorem C9_reqres_nflight_no_effect (cfg1 cfg2 : Config) (env : MainEnv)
    (hhost : cfg1.host = cfg2.host) (hport : cfg1.port = cfg2.port)
    (hshost : cfg1.shost = cfg2.shost) (hsport : cfg1.sport = cfg2.sport)
    (hlisten : cfg1.listen = cfg2.listen) (hsize : cfg1.packetsize = cfg2.packetsize)
    (hnconn : cfg1.nconn = cfg2.nconn) (hprofile : cfg1.profile = cfg2.profile)
    (hnargs : cfg1.nargs = cfg2.nargs) :
    mainRun cfg1 env = mainRun cfg2 env := by
  have hserver : serverOf cfg1 = serverOf cfg2 := by
    simp [serverOf, joinHostPort, hhost, hport]
  have hclient : ConnectAndGo (clientOf cfg1) env.client
      = ConnectAndGo (clientOf cfg2) env.client :=
    ConnectAndGo_ext _ _ _
      (by simp [clientOf, joinHostPort, hhost, hport])
      (by simp [clientOf, joinHostPort, hshost, hsport])
      rfl
      (by simp [clientOf, hnconn])
  simp only [mainRun, hnargs, hlisten, hsize, hserver, hclient]

/-- C9 witness: default flags versus `cfgReq` in the failing-dial
environment give identical run outcomes. -/
theorem C9_witness :
    defaultFlags.host = cfgReq.host ∧ defaultFlags.port = cfgReq.port
    ∧ defaultFlags.shost = cfgReq.shost ∧ defaultFlags.sport = cfgReq.sport
    ∧ defaultFlags.listen = cfgReq.listen
    ∧ defaultFlags.packetsize = cfgReq.packetsize
    ∧ defaultFlags.nconn = cfgReq.nconn ∧ defaultFlags.profile = cfgReq.profile
    ∧ defaultFlags.nargs = cfgReq.nargs
    ∧ defaultFlags.reqres ≠ cfgReq.reqres ∧ defaultFlags.nflight ≠ cfgReq.nflight
    ∧ mainRun defaultFlags envFail = mainRun cfgReq envFail :=
  ⟨rfl, rfl, rfl, rfl, rfl, rfl, rfl, rfl, rfl, by decide, by decide,
    C9_reqres_nflight_no_effect defaultFlags cfgReq envFail
      rfl rfl rfl rfl rfl rfl rfl rfl rfl⟩

end GoNetperf

